import Mathlib

/-!
Shallow embedding of the `EGAClient` class from `ega-public-metadata.ipynb`
(NBISweden/ega-public-metadata) and proofs about its endpoint construction,
pagination parameters, error handling and frame properties.

The Python client issues HTTP GET requests through the `requests` library.
We model the network as an oracle `http : Request → HTTPOutcome` supplied to
each call; the call records the single request it issues so that "issues a
GET to ..." becomes a statement about the recorded request list.
-/

/-- A JSON value, as decoded by `response.json()`. -/
inductive JsonVal where
  | null
  | bool (b : Bool)
  | num (n : Int)
  | str (s : String)
  | arr (elems : List JsonVal)
  | obj (fields : List (String × JsonVal))

/-- The body of an HTTP response, abstracted to its JSON-parse outcome:
`jsonBody v` is a body that `response.json()` decodes to `v`; `rawBody s`
is a body that is not valid JSON (decoding raises `JSONDecodeError`). -/
inductive Body where
  | jsonBody (v : JsonVal)
  | rawBody (s : String)

/-- Outcome of one `requests.get` call: either the connection fails
(`requests.ConnectionError`, a `RequestException`) or a response with an
HTTP status code and a body arrives. -/
inductive HTTPOutcome where
  | connectionFailure
  | response (status : Nat) (body : Body)

/-- One outbound GET request: the URL passed to `requests.get` and the
`params` dict (insertion-ordered key/value list, as Python dicts are). -/
structure Request where
  url : String
  params : List (String × Int)
deriving DecidableEq, Repr

/-- How `requests` serializes a params dict into a query string
(our keys and values need no percent-encoding). -/
def encodeParams (ps : List (String × Int)) : String :=
  String.intercalate "&" (ps.map fun p => p.1 ++ "=" ++ toString p.2)

/-- The full URL actually fetched: `requests` appends `?` and the encoded
parameters only when the params dict is non-empty. -/
def Request.fullUrl (r : Request) : String :=
  if r.params.isEmpty then r.url else r.url ++ "?" ++ encodeParams r.params

/-- The client's error taxonomy: `requestError` models
`requests.RequestException` (`HTTPError` from `raise_for_status`, or a
connection failure); `decodeError` models `JSONDecodeError` from
`response.json()`. -/
inductive GetError where
  | requestError
  | decodeError
deriving DecidableEq, Repr

/-- `class EGAClient:` — its only state is `self.base_url`, set in
`__init__`. -/
structure EGAClient where
  base_url : String
deriving DecidableEq, Repr

/-- The observable effect of one client call: the value returned or the
error raised, the client state after the call, and the list of outbound
requests the call issued. -/
structure CallResult where
  result : Except GetError JsonVal
  client : EGAClient
  issued : List Request

/-- Classification of a single HTTP outcome by `_get`'s tail:
`response.raise_for_status()` raises `HTTPError` exactly for client-error
and server-error statuses (`400 <= status < 600`, per the `requests`
source); otherwise `response.json()` either decodes the body or raises
`JSONDecodeError`. A connection failure is raised by `requests.get`
itself. -/
def handleOutcome : HTTPOutcome → Except GetError JsonVal
  | .connectionFailure => .error .requestError
  | .response status body =>
    if 400 ≤ status ∧ status < 600 then .error .requestError
    else
      match body with
      | .jsonBody v => .ok v
      | .rawBody _ => .error .decodeError

/-- `EGAClient._get`: builds `url = f'{self.base_url}/{endpoint}'`, issues
exactly one `requests.get(url, params=params)`, and classifies the outcome
(`raise_for_status`, then `response.json()`). The method never assigns to
`self`, so the client state is returned unchanged. -/
def EGAClient._get (c : EGAClient) (endpoint : String)
    (params : List (String × Int)) (http : Request → HTTPOutcome) : CallResult :=
  let url := c.base_url ++ "/" ++ endpoint
  let req : Request := { url := url, params := params }
  { result := handleOutcome (http req), client := c, issued := [req] }

/-- The pagination params dict: `params = {}`, then `params['limit'] = limit`
when `limit is not None`, then `params['offset'] = offset` when
`offset is not None` (dict insertion order preserved). -/
def pagParams (limit offset : Option Int) : List (String × Int) :=
  (match limit with
   | some l => [("limit", l)]
   | none => []) ++
  (match offset with
   | some o => [("offset", o)]
   | none => [])

/-- `EGAClient.get_entity`: `endpoint = entity_type`, and
`if accession_id: endpoint += f'/{accession_id}'` — Python string truthiness
makes `None` and the empty string both skip the accession segment. -/
def EGAClient.get_entity (c : EGAClient) (entity_type : String)
    (accession_id : Option String) (limit offset : Option Int)
    (http : Request → HTTPOutcome) : CallResult :=
  let endpoint :=
    match accession_id with
    | some a => if a = "" then entity_type else entity_type ++ "/" ++ a
    | none => entity_type
  EGAClient._get c endpoint (pagParams limit offset) http

/-- `EGAClient.get_related_entities`: `endpoint = entity_type`, and
`if accession_id: endpoint += f'/{accession_id}/{related_entity_type}'` —
for a falsy accession both the accession and the related-entity segment are
skipped. -/
def EGAClient.get_related_entities (c : EGAClient) (entity_type : String)
    (related_entity_type : String) (accession_id : Option String)
    (limit offset : Option Int) (http : Request → HTTPOutcome) : CallResult :=
  let endpoint :=
    match accession_id with
    | some a =>
      if a = "" then entity_type
      else entity_type ++ "/" ++ a ++ "/" ++ related_entity_type
    | none => entity_type
  EGAClient._get c endpoint (pagParams limit offset) http

/-- The one request a call issued (every call issues exactly one). -/
def firstRequest (r : CallResult) : Request :=
  r.issued.headD { url := "", params := [] }

/-- An oracle standing for a healthy server: every request gets a 200
response with JSON body `null`. -/
def okOracle : Request → HTTPOutcome :=
  fun _ => HTTPOutcome.response 200 (Body.jsonBody JsonVal.null)

/-- String append is associative (on the underlying character lists). -/
theorem string_append_assoc (a b c : String) : a ++ b ++ c = a ++ (b ++ c) := by
  cases a with
  | mk da =>
    cases b with
    | mk db =>
      cases c with
      | mk dc =>
        show String.mk (da ++ db ++ dc) = String.mk (da ++ (db ++ dc))
        rw [List.append_assoc]

/-- Claim C1, counterexample: with `accession_id = ""` (falsy in Python),
`get_related_entities` issues a GET to the bare `datasets` path, not to
`datasets//samples`, so the endpoint path does not include the accession id
and the related entity type for *every* accession id. -/
theorem C1_counterexample :
    (EGAClient.get_related_entities ⟨"https://metadata.ega-archive.org"⟩
        "datasets" "samples" (some "") none none okOracle).issued.map Request.url
      = ["https://metadata.ega-archive.org/datasets"]
    ∧ ("https://metadata.ega-archive.org/datasets" : String)
      ≠ "https://metadata.ega-archive.org/datasets//samples" := by
  exact ⟨rfl, by decide⟩

/-- Claim C1, amended: for every entity type, related entity type and
*non-empty* accession id, `get_related_entities` issues one GET whose
endpoint path is `entity_type/accession_id/related_entity_type`, the
accession id before the related entity type. -/
theorem C1_related_path (c : EGAClient) (entity_type related_entity_type a : String)
    (h : a ≠ "") (limit offset : Option Int) (http : Request → HTTPOutcome) :
    (EGAClient.get_related_entities c entity_type related_entity_type (some a)
        limit offset http).issued.map Request.url
      = [c.base_url ++ "/" ++ (entity_type ++ "/" ++ a ++ "/" ++ related_entity_type)] := by
  simp [EGAClient.get_related_entities, EGAClient._get, h]

/-- Claim C1, witness: the amended theorem at a concrete call. -/
theorem C1_witness :
    ("EGAD50000000298" : String) ≠ ""
    ∧ (EGAClient.get_related_entities ⟨"https://metadata.ega-archive.org"⟩
          "datasets" "samples" (some "EGAD50000000298") none none okOracle).issued.map Request.url
        = ["https://metadata.ega-archive.org" ++ "/"
            ++ ("datasets" ++ "/" ++ "EGAD50000000298" ++ "/" ++ "samples")] :=
  ⟨by decide,
    C1_related_path ⟨"https://metadata.ega-archive.org"⟩ "datasets" "samples"
      "EGAD50000000298" (by decide) none none okOracle⟩

/-- Claim C3: for every entity type and non-empty accession id, `get_entity`
issues one GET to endpoint path `entity_type/accession_id`. -/
theorem C3_entity_path (c : EGAClient) (entity_type a : String) (h : a ≠ "")
    (limit offset : Option Int) (http : Request → HTTPOutcome) :
    (EGAClient.get_entity c entity_type (some a) limit offset http).issued.map Request.url
      = [c.base_url ++ "/" ++ (entity_type ++ "/" ++ a)] := by
  simp [EGAClient.get_entity, EGAClient._get, h]

/-- Claim C3, witness: the theorem at a concrete call. -/
theorem C3_witness :
    ("EGAS50000000209" : String) ≠ ""
    ∧ (EGAClient.get_entity ⟨"https://metadata.ega-archive.org"⟩ "studies"
          (some "EGAS50000000209") none none okOracle).issued.map Request.url
        = ["https://metadata.ega-archive.org" ++ "/" ++ ("studies" ++ "/" ++ "EGAS50000000209")] :=
  ⟨by decide,
    C3_entity_path ⟨"https://metadata.ega-archive.org"⟩ "studies"
      "EGAS50000000209" (by decide) none none okOracle⟩

/-- Claim C4: for every entity type, `get_entity` with an absent (`None`) or
falsy (empty-string) accession id issues a GET to the bare `entity_type`
path, with no trailing accession segment. -/
theorem C4_bare_path (c : EGAClient) (entity_type : String)
    (limit offset : Option Int) (http : Request → HTTPOutcome) :
    (EGAClient.get_entity c entity_type none limit offset http).issued.map Request.url
        = [c.base_url ++ "/" ++ entity_type]
    ∧ (EGAClient.get_entity c entity_type (some "") limit offset http).issued.map Request.url
        = [c.base_url ++ "/" ++ entity_type] := by
  constructor <;> simp [EGAClient.get_entity, EGAClient._get]

/-- Claim C10: with a falsy accession id (`None` or the empty string),
`get_related_entities` raises no error; the related entity type is silently
dropped along with the accession segment and the call coincides — result,
client state and issued requests, with any `limit`/`offset` still attached —
with `get_entity` on the bare entity type. -/
theorem C10_falsy_accession (c : EGAClient) (entity_type related_entity_type : String)
    (limit offset : Option Int) (http : Request → HTTPOutcome) :
    EGAClient.get_related_entities c entity_type related_entity_type none
        limit offset http
      = EGAClient.get_entity c entity_type none limit offset http
    ∧ EGAClient.get_related_entities c entity_type related_entity_type (some "")
        limit offset http
      = EGAClient.get_entity c entity_type none limit offset http := by
  constructor
  · rfl
  · simp [EGAClient.get_related_entities, EGAClient.get_entity]

/-- Claim C2: every call of `get_entity` or `get_related_entities` carries
exactly the params dict built from `limit` and `offset`, and a pair
`("limit", v)` (resp. `("offset", v)`) occurs in that dict exactly when
`limit = some v` (resp. `offset = some v`) — so a provided value appears
literally and an absent (`None`) argument contributes no parameter at all. -/
theorem C2_pagination_params (c : EGAClient) (entity_type related_entity_type : String)
    (accession_id : Option String) (limit offset : Option Int)
    (http : Request → HTTPOutcome) (v : Int) :
    (EGAClient.get_entity c entity_type accession_id limit offset http).issued.map Request.params
        = [pagParams limit offset]
    ∧ (EGAClient.get_related_entities c entity_type related_entity_type accession_id
          limit offset http).issued.map Request.params
        = [pagParams limit offset]
    ∧ (("limit", v) ∈ pagParams limit offset ↔ limit = some v)
    ∧ (("offset", v) ∈ pagParams limit offset ↔ offset = some v) := by
  refine ⟨rfl, rfl, ?_, ?_⟩ <;>
    cases limit <;> cases offset <;> simp [pagParams, eq_comm]

/-- Claim C5: zero is distinguished from absent — `limit=0` (resp.
`offset=0`) puts the parameter with value `0` into the single issued
request of either method, while an absent (`None`) argument leaves the
params dict without that parameter (empty when both are absent). -/
theorem C5_zero_vs_absent (c : EGAClient) (entity_type related_entity_type : String)
    (accession_id : Option String) (http : Request → HTTPOutcome) :
    (EGAClient.get_entity c entity_type accession_id (some 0) none http).issued.map Request.params
        = [[("limit", (0 : Int))]]
    ∧ (EGAClient.get_entity c entity_type accession_id none (some 0) http).issued.map Request.params
        = [[("offset", (0 : Int))]]
    ∧ (EGAClient.get_entity c entity_type accession_id none none http).issued.map Request.params
        = [[]]
    ∧ (EGAClient.get_related_entities c entity_type related_entity_type accession_id
          (some 0) none http).issued.map Request.params
        = [[("limit", (0 : Int))]]
    ∧ (EGAClient.get_related_entities c entity_type related_entity_type accession_id
          none (some 0) http).issued.map Request.params
        = [[("offset", (0 : Int))]]
    ∧ (EGAClient.get_related_entities c entity_type related_entity_type accession_id
          none none http).issued.map Request.params
        = [[]] :=
  ⟨rfl, rfl, rfl, rfl, rfl, rfl⟩

/-- Claim C6, counterexample: a 304 response is not a success (non-2xx),
yet `raise_for_status` raises only for 4xx/5xx statuses, so the call
returns the decoded JSON body instead of raising a `RequestError`. -/
theorem C6_counterexample :
    (EGAClient.get_entity ⟨"https://metadata.ega-archive.org"⟩ "studies" none none none
        (fun _ => HTTPOutcome.response 304 (Body.jsonBody JsonVal.null))).result
      = Except.ok JsonVal.null
    ∧ ¬ (200 ≤ 304 ∧ 304 < 300) := by
  exact ⟨rfl, by decide⟩

/-- Claim C6, amended: each call classifies the outcome of its single
request and nothing else — a connection failure, or a client/server error
status (400–599), raises `RequestError` and returns no value; a non-error
status with a body that is not valid JSON raises `DecodeError`; in every
other case the decoded JSON body is returned. No error is swallowed or
recovered from inside the client. -/
theorem C6_error_taxonomy (c : EGAClient) (entity_type related_entity_type : String)
    (accession_id : Option String) (limit offset : Option Int)
    (http : Request → HTTPOutcome) :
    (EGAClient.get_entity c entity_type accession_id limit offset http).result
        = handleOutcome (http (firstRequest
            (EGAClient.get_entity c entity_type accession_id limit offset http)))
    ∧ (EGAClient.get_related_entities c entity_type related_entity_type accession_id
          limit offset http).result
        = handleOutcome (http (firstRequest
            (EGAClient.get_related_entities c entity_type related_entity_type accession_id
              limit offset http)))
    ∧ handleOutcome HTTPOutcome.connectionFailure = Except.error GetError.requestError
    ∧ (∀ s b, 400 ≤ s → s < 600 →
        handleOutcome (HTTPOutcome.response s b) = Except.error GetError.requestError)
    ∧ (∀ s v, ¬ (400 ≤ s ∧ s < 600) →
        handleOutcome (HTTPOutcome.response s (Body.jsonBody v)) = Except.ok v)
    ∧ (∀ s bad, ¬ (400 ≤ s ∧ s < 600) →
        handleOutcome (HTTPOutcome.response s (Body.rawBody bad)) = Except.error GetError.decodeError) := by
  refine ⟨rfl, rfl, rfl, ?_, ?_, ?_⟩
  · intro s b h1 h2
    simp [handleOutcome, h1, h2]
  · intro s v h
    simp [handleOutcome, h]
  · intro s bad h
    simp [handleOutcome, h]

/-- Claim C7: `get_related_entities('datasets', 'samples',
'EGAD50000000298', limit=10, offset=2)` issues exactly one GET, to
`{base_url}/datasets/EGAD50000000298/samples`, with query parameters
`limit=10` and `offset=2` in that order, serialized as the query string
`limit=10&offset=2`. -/
theorem C7_example_related (c : EGAClient) (http : Request → HTTPOutcome) :
    (EGAClient.get_related_entities c "datasets" "samples" (some "EGAD50000000298")
        (some 10) (some 2) http).issued
      = [{ url := c.base_url ++ "/datasets/EGAD50000000298/samples",
           params := [("limit", 10), ("offset", 2)] }]
    ∧ Request.fullUrl
        { url := c.base_url ++ "/datasets/EGAD50000000298/samples",
          params := [("limit", (10 : Int)), ("offset", (2 : Int))] }
      = c.base_url ++ "/datasets/EGAD50000000298/samples?limit=10&offset=2" := by
  constructor
  · exact congrArg
      (fun u => [({ url := u, params := [("limit", 10), ("offset", 2)] } : Request)])
      (string_append_assoc c.base_url "/"
        ("datasets" ++ "/" ++ "EGAD50000000298" ++ "/" ++ "samples"))
  · exact (string_append_assoc (c.base_url ++ "/datasets/EGAD50000000298/samples")
        "?" "limit=10&offset=2").trans
      (string_append_assoc c.base_url "/datasets/EGAD50000000298/samples"
        ("?" ++ "limit=10&offset=2"))

/-- Claim C8: `get_entity('studies', accession_id='EGAS50000000209')`
issues exactly one GET, to `{base_url}/studies/EGAS50000000209`, with an
empty params dict, which serializes to no query string at all — the full
URL is the bare URL. -/
theorem C8_example_entity (c : EGAClient) (http : Request → HTTPOutcome) :
    (EGAClient.get_entity c "studies" (some "EGAS50000000209") none none http).issued
      = [{ url := c.base_url ++ "/studies/EGAS50000000209", params := [] }]
    ∧ Request.fullUrl { url := c.base_url ++ "/studies/EGAS50000000209", params := [] }
      = c.base_url ++ "/studies/EGAS50000000209" := by
  constructor
  · exact congrArg
      (fun u => [({ url := u, params := [] } : Request)])
      (string_append_assoc c.base_url "/" ("studies" ++ "/" ++ "EGAS50000000209"))
  · rfl

/-- Claim C9: the client's only state, `base_url`, set at construction, is
returned unchanged by every call of either method (whatever the oracle
returns, success or failure), and every call issues exactly one outbound
request. -/
theorem C9_frame (c : EGAClient) (entity_type related_entity_type : String)
    (accession_id : Option String) (limit offset : Option Int)
    (http : Request → HTTPOutcome) :
    (EGAClient.get_entity c entity_type accession_id limit offset http).client = c
    ∧ (EGAClient.get_entity c entity_type accession_id limit offset http).issued.length = 1
    ∧ (EGAClient.get_related_entities c entity_type related_entity_type accession_id
          limit offset http).client = c
    ∧ (EGAClient.get_related_entities c entity_type related_entity_type accession_id
          limit offset http).issued.length = 1 :=
  ⟨rfl, rfl, rfl, rfl⟩
